import Mathlib

/-!
Shallow embedding of the mvp-rtsc webhook/storage/coaching core.

Sources embedded:
- `src/lib/storage.js` (class `CallStorage`)
- `src/pages/api/webhook/recall.js` (current handler, Svix variant)
- `src/unnamed/part_002` (the coaching query endpoint `/api/coaching/[meetingId]`)
- `src/pages/api/settings/prompt.js`
- `src/lib/claude.js` (the JSON-extraction step of `generateSalesCoaching`)

Conventions:
- JavaScript `new Date().toISOString()` timestamps are modelled as `Nat`
  milliseconds since the epoch; the handler's "current time" is a parameter
  `now`, constant within one handler invocation.
- JavaScript string truthiness (`s` truthy iff `s !== ''` for defined strings)
  is modelled on `Option String` by `otruthy`; `x || y` on strings is `jsOrStr`.
- `JSON.parse` is modelled by the executable `parseJson` below;
  JS `String.prototype.trim`-style whitespace by `isJsWs`/`jsTrim`.
-/

/-- Whitespace as matched by the JavaScript `\s` class and `trim()`
(ASCII subset: space, tab, newline, carriage return, vertical tab, form feed). -/
def isJsWs (c : Char) : Bool :=
  c = ' ' || c = '\t' || c = '\n' || c = '\r' || c = '\x0b' || c = '\x0c'

/-- Model of JavaScript `String.prototype.trim`. -/
def jsTrim (s : String) : String :=
  ⟨((s.data.dropWhile isJsWs).reverse.dropWhile isJsWs).reverse⟩

/-- Model of `words.map(w => w.text).join(' ')` from the webhook handler,
with each word already projected to its `text`. -/
def joinWords (words : List String) : String :=
  String.intercalate " " words

/-- Truthiness of an optional JS string: `undefined`/`null` and `''` are falsy. -/
def otruthy : Option String → Bool
  | some s => s != ""
  | none => false

/-- JS `x || d` where `x` is an optional string and `d` a default. -/
def jsOrStr (o : Option String) (d : String) : String :=
  match o with
  | some s => if s = "" then d else s
  | none => d

/-- First truthy value of a JS `a || b || c || ...` chain of optional strings
(used for `actualMeetingId` and `eventName` resolution in the webhook handler). -/
def firstTruthy : List (Option String) → Option String
  | [] => none
  | some s :: rest => if s = "" then firstTruthy rest else some s
  | none :: rest => firstTruthy rest

/-- Lifecycle status of a session.  Modelled from the spec: the provided
`storage.js` creates call objects without a status field, while the webhook
handler calls `storage.activateCall` / `storage.endCall`, whose definitions are
absent from src.  Per spec §3, status is an enum pending/active/ended. -/
inductive CallStatus where
  | pending
  | active
  | ended
deriving DecidableEq

/-- Metadata bag attached to a stored transcript segment.
`realtime` mirrors `{...metadata, event_type, word_count, is_partial}` from the
realtime path (the opaque spread of the payload's `metadata` is not inspected by
any claim and is elided); `fetched` mirrors `{...segment, source: 'transcript.done'}`
from the bulk-append path, keeping the segment's `start` field. -/
inductive SegMeta where
  | realtime (event_type : String) (word_count : Nat) (partialFlag : Bool)
  | fetched (start : Nat)
deriving DecidableEq

/-- One stored transcript segment (an element of `call.transcripts`). -/
structure Transcript where
  text : String
  speaker : String
  metadata : SegMeta
  timestamp : Nat
deriving DecidableEq

/-- JSON values, for the coaching-extraction step of `generateSalesCoaching`.
Numbers are kept as scaled decimals `mantissa * 10 ^ exp10` so that JSON
number literals embed exactly. -/
inductive Json where
  | null
  | bool (b : Bool)
  | num (mantissa : Int) (exp10 : Int)
  | str (s : String)
  | arr (elems : List Json)
  | obj (fields : List (String × Json))

/-- One stored coaching record: the coaching data plus the `timestamp` added by
`addCoaching` (the JS object spread `{...coaching, timestamp}` is modelled as a
pair). -/
structure Coaching where
  data : Json
  timestamp : Nat

/-- Custom prompt configuration held by the store.  Modelled from the spec:
`storage.getPrompts` / `storage.setPrompts` are called from
`src/pages/api/settings/prompt.js` and `src/lib/claude.js` but no definition
exists under src; per spec §3 the Prompt Configuration is a singleton mutable
pair, unset (null) by default. -/
structure Prompts where
  systemPrompt : Option String
  userPrompt : Option String
deriving DecidableEq

/-- One call context, as created by `CallStorage.getOrCreateCall`. -/
structure Call where
  meetingId : String
  transcripts : List Transcript
  coachingRecommendations : List Coaching
  participants : List String
  startTime : Nat
  lastUpdate : Nat
  /-- Modelled from the spec: the call-object literal in the provided
  `storage.js` has no status field (see `CallStatus`); per spec §3 the status
  starts `pending` on first reference. -/
  status : CallStatus

/-- Lookup in the `Map`-backed call table (insertion-ordered association list). -/
def findCall (m : List (String × Call)) (k : String) : Option Call :=
  match m with
  | [] => none
  | (k', v) :: rest => if k' = k then some v else findCall rest k

/-- `Map.set`: replace in place when the key exists, append otherwise. -/
def setCall (m : List (String × Call)) (k : String) (v : Call) : List (String × Call) :=
  match m with
  | [] => [(k, v)]
  | (k', v') :: rest => if k' = k then (k, v) :: rest else (k', v') :: setCall rest k v

/-- JS `Set.prototype.add` on the participants set (insertion-ordered, deduplicated). -/
def jsSetAdd (l : List String) (s : String) : List String :=
  if s ∈ l then l else l ++ [s]

/-- The in-memory store (`class CallStorage`); `prompts` is the spec-modelled
prompt-configuration slot (see `Prompts`). -/
structure CallStorage where
  calls : List (String × Call)
  prompts : Prompts

/-- The freshly constructed singleton store. -/
def CallStorage.init : CallStorage :=
  { calls := [], prompts := { systemPrompt := none, userPrompt := none } }

/-- `getOrCreateCall(meetingId)`: initialize or get a call context.  Returns the
call together with the (possibly extended) store.  The `status := .pending`
field of the fresh call is modelled from the spec (see `Call.status`). -/
def getOrCreateCall (meetingId : String) (now : Nat) (st : CallStorage) :
    Call × CallStorage :=
  match findCall st.calls meetingId with
  | some c => (c, st)
  | none =>
    let c : Call :=
      { meetingId := meetingId
        transcripts := []
        coachingRecommendations := []
        participants := []
        startTime := now
        lastUpdate := now
        status := CallStatus.pending }
    (c, { st with calls := setCall st.calls meetingId c })

/-- Argument record passed to `addTranscript` by its callers (the webhook
handler passes a `timestamp` field, which `addTranscript` overwrites). -/
structure TranscriptArg where
  text : String
  speaker : String
  metadata : SegMeta
  timestamp : Nat

/-- `addTranscript(meetingId, transcript)`: push `{...transcript, timestamp: new
Date().toISOString()}` (note: the spread's `timestamp` is overwritten with the
current time), refresh `lastUpdate`, and add the speaker to the participants
set when truthy. -/
def addTranscript (meetingId : String) (t : TranscriptArg) (now : Nat)
    (st : CallStorage) : CallStorage :=
  let (call, st1) := getOrCreateCall meetingId now st
  let stored : Transcript :=
    { text := t.text, speaker := t.speaker, metadata := t.metadata, timestamp := now }
  let call :=
    { call with
      transcripts := call.transcripts ++ [stored]
      lastUpdate := now
      participants :=
        if t.speaker = "" then call.participants
        else jsSetAdd call.participants t.speaker }
  { st1 with calls := setCall st1.calls meetingId call }

/-- `addCoaching(meetingId, coaching)`: push `{...coaching, timestamp}` and
refresh `lastUpdate`. -/
def addCoaching (meetingId : String) (coaching : Json) (now : Nat)
    (st : CallStorage) : CallStorage :=
  let (call, st1) := getOrCreateCall meetingId now st
  let call :=
    { call with
      coachingRecommendations :=
        call.coachingRecommendations ++ [{ data := coaching, timestamp := now }]
      lastUpdate := now }
  { st1 with calls := setCall st1.calls meetingId call }

/-- `getCall(meetingId)`: all data for a call, or null.  (The JS version returns
a copy with the participants `Set` converted to an array; participants are
already a list here.) -/
def getCall (meetingId : String) (st : CallStorage) : Option Call :=
  findCall st.calls meetingId

/-- JS `arr.slice(-limit)` for a positive `limit`: the last `limit` elements. -/
def sliceLast (limit : Nat) (l : List α) : List α :=
  l.drop (l.length - limit)

/-- `getLatestCoaching(meetingId, limit)`: last `limit` coaching records,
most-recent-first; `[]` when the call is unknown. -/
def getLatestCoaching (meetingId : String) (limit : Nat) (st : CallStorage) :
    List Coaching :=
  match findCall st.calls meetingId with
  | none => []
  | some call => (sliceLast limit call.coachingRecommendations).reverse

/-- `getRecentTranscripts(meetingId, limit)`: last `limit` transcript segments,
most-recent-first; `[]` when the call is unknown. -/
def getRecentTranscripts (meetingId : String) (limit : Nat) (st : CallStorage) :
    List Transcript :=
  match findCall st.calls meetingId with
  | none => []
  | some call => (sliceLast limit call.transcripts).reverse

/-- Modelled from the spec: `storage.activateCall` is called by the webhook
handler but has no definition under src.  Per spec §4.2 rule 5, a bot-activated
event transitions the session status to `active` if not already `ended` (with
`lastUpdatedAt` refreshed on mutation, spec §3). -/
def activateCall (meetingId : String) (now : Nat) (st : CallStorage) : CallStorage :=
  let (call, st1) := getOrCreateCall meetingId now st
  if call.status = CallStatus.ended then st1
  else
    { st1 with
      calls := setCall st1.calls meetingId
        { call with status := CallStatus.active, lastUpdate := now } }

/-- Modelled from the spec: `storage.endCall` is called by the webhook handler
but has no definition under src.  Per spec §4.2 rule 6, a terminal event
transitions the session status to `ended` unconditionally. -/
def endCall (meetingId : String) (now : Nat) (st : CallStorage) : CallStorage :=
  let (call, st1) := getOrCreateCall meetingId now st
  { st1 with
    calls := setCall st1.calls meetingId
      { call with status := CallStatus.ended, lastUpdate := now } }

/-- Modelled from the spec: `storage.getPrompts` (read of the singleton Prompt
Configuration, spec §3/§6) — called by `prompt.js` and `claude.js`, definition
absent from src. -/
def getPrompts (st : CallStorage) : Prompts :=
  st.prompts

/-- Modelled from the spec: `storage.setPrompts` (single-writer update of the
singleton Prompt Configuration, spec §3/§6) — called by `prompt.js`, definition
absent from src. -/
def setPrompts (p : Prompts) (st : CallStorage) : CallStorage :=
  { st with prompts := p }

/-! ## JSON parsing (model of `JSON.parse`) and the extraction step of
`generateSalesCoaching` in `src/lib/claude.js` -/

/-- JSON whitespace (as accepted by `JSON.parse` between tokens). -/
def isJsonWsC (c : Char) : Bool :=
  c = ' ' || c = '\t' || c = '\n' || c = '\r'

/-- Skip JSON whitespace. -/
def skipJsonWs (cs : List Char) : List Char :=
  cs.dropWhile isJsonWsC

/-- Decimal digit test. -/
def isDigitC (c : Char) : Bool :=
  '0' ≤ c && c ≤ '9'

/-- Value of a hex digit. -/
def hexVal (c : Char) : Option Nat :=
  if '0' ≤ c ∧ c ≤ '9' then some (c.toNat - 48)
  else if 'a' ≤ c ∧ c ≤ 'f' then some (c.toNat - 87)
  else if 'A' ≤ c ∧ c ≤ 'F' then some (c.toNat - 55)
  else none

/-- Numeric value of a digit list. -/
def digitsToNat (ds : List Char) : Nat :=
  ds.foldl (fun n c => n * 10 + (c.toNat - 48)) 0

/-- Body of a JSON string (after the opening quote), with the escapes
`JSON.parse` accepts; control characters below 0x20 are rejected. -/
def parseStringBody : Nat → List Char → List Char → Option (String × List Char)
  | 0, _, _ => none
  | _ + 1, [], _ => none
  | fuel + 1, c :: rest, acc =>
    if c = '"' then some (⟨acc.reverse⟩, rest)
    else if c = '\\' then
      match rest with
      | [] => none
      | e :: rest2 =>
        if e = '"' then parseStringBody fuel rest2 ('"' :: acc)
        else if e = '\\' then parseStringBody fuel rest2 ('\\' :: acc)
        else if e = '/' then parseStringBody fuel rest2 ('/' :: acc)
        else if e = 'b' then parseStringBody fuel rest2 ('\x08' :: acc)
        else if e = 'f' then parseStringBody fuel rest2 ('\x0c' :: acc)
        else if e = 'n' then parseStringBody fuel rest2 ('\n' :: acc)
        else if e = 'r' then parseStringBody fuel rest2 ('\r' :: acc)
        else if e = 't' then parseStringBody fuel rest2 ('\t' :: acc)
        else if e = 'u' then
          match rest2 with
          | h1 :: h2 :: h3 :: h4 :: rest3 =>
            match hexVal h1, hexVal h2, hexVal h3, hexVal h4 with
            | some a, some b, some c2, some d =>
              parseStringBody fuel rest3
                (Char.ofNat (((a * 16 + b) * 16 + c2) * 16 + d) :: acc)
            | _, _, _, _ => none
          | _ => none
        else none
    else if c.toNat < 32 then none
    else parseStringBody fuel rest (c :: acc)

/-- Exponent digits of a JSON number (after `e`/`E`). -/
def expDigits (cs : List Char) : Option (Int × List Char) :=
  let (sgn, cs1) :=
    match cs with
    | '+' :: r => ((1 : Int), r)
    | '-' :: r => ((-1 : Int), r)
    | _ => ((1 : Int), cs)
  let ds := cs1.takeWhile isDigitC
  if ds = [] then none
  else some (sgn * Int.ofNat (digitsToNat ds), cs1.drop ds.length)

/-- Optional exponent part of a JSON number. -/
def expPart (cs : List Char) : Option (Int × List Char) :=
  match cs with
  | 'e' :: rest => expDigits rest
  | 'E' :: rest => expDigits rest
  | _ => some (0, cs)

/-- JSON number grammar: `-? int frac? exp?` with no leading zeros. -/
def parseNumber (cs : List Char) : Option (Json × List Char) :=
  let (neg, cs1) :=
    match cs with
    | '-' :: rest => (true, rest)
    | _ => (false, cs)
  let intDigits := cs1.takeWhile isDigitC
  let cs2 := cs1.drop intDigits.length
  if intDigits = [] then none
  else if 1 < intDigits.length ∧ intDigits.head? = some '0' then none
  else
    let (fracDigits, cs3) :=
      match cs2 with
      | '.' :: rest =>
        let f := rest.takeWhile isDigitC
        (f, rest.drop f.length)
      | _ => ([], cs2)
    if cs2.head? = some '.' ∧ fracDigits = [] then none
    else
      match expPart cs3 with
      | none => none
      | some (expVal, cs4) =>
        let m : Int := Int.ofNat (digitsToNat (intDigits ++ fracDigits))
        some (Json.num (if neg then -m else m) (expVal - Int.ofNat fracDigits.length), cs4)

mutual

/-- One JSON value (fuelled recursive descent). -/
def parseValue : Nat → List Char → Option (Json × List Char)
  | 0, _ => none
  | fuel + 1, cs =>
    match cs with
    | [] => none
    | c :: rest =>
      if c = '"' then
        match parseStringBody (rest.length + 1) rest [] with
        | some (s, r) => some (Json.str s, r)
        | none => none
      else if c = '{' then
        match skipJsonWs rest with
        | '}' :: r => some (Json.obj [], r)
        | cs1 =>
          match parseMembers fuel cs1 with
          | some (fields, r) => some (Json.obj fields, r)
          | none => none
      else if c = '[' then
        match skipJsonWs rest with
        | ']' :: r => some (Json.arr [], r)
        | cs1 =>
          match parseItems fuel cs1 with
          | some (elems, r) => some (Json.arr elems, r)
          | none => none
      else if c = 't' then
        if List.isPrefixOf ['r', 'u', 'e'] rest then some (Json.bool true, rest.drop 3)
        else none
      else if c = 'f' then
        if List.isPrefixOf ['a', 'l', 's', 'e'] rest then some (Json.bool false, rest.drop 4)
        else none
      else if c = 'n' then
        if List.isPrefixOf ['u', 'l', 'l'] rest then some (Json.null, rest.drop 3)
        else none
      else parseNumber cs

/-- Members of a JSON object (cursor on the first key's opening quote). -/
def parseMembers : Nat → List Char → Option (List (String × Json) × List Char)
  | 0, _ => none
  | fuel + 1, cs =>
    match cs with
    | '"' :: rest =>
      match parseStringBody (rest.length + 1) rest [] with
      | none => none
      | some (key, r1) =>
        match skipJsonWs r1 with
        | ':' :: r2 =>
          match parseValue fuel (skipJsonWs r2) with
          | none => none
          | some (v, r3) =>
            match skipJsonWs r3 with
            | ',' :: r4 =>
              match parseMembers fuel (skipJsonWs r4) with
              | some (fields, r5) => some ((key, v) :: fields, r5)
              | none => none
            | '}' :: r4 => some ([(key, v)], r4)
            | _ => none
        | _ => none
    | _ => none

/-- Items of a JSON array (cursor on the first item). -/
def parseItems : Nat → List Char → Option (List Json × List Char)
  | 0, _ => none
  | fuel + 1, cs =>
    match parseValue fuel cs with
    | none => none
    | some (v, r1) =>
      match skipJsonWs r1 with
      | ',' :: r2 =>
        match parseItems fuel (skipJsonWs r2) with
        | some (elems, r3) => some (v :: elems, r3)
        | none => none
      | ']' :: r2 => some ([v], r2)
      | _ => none

end

/-- Model of `JSON.parse`: a single JSON value surrounded by whitespace;
`none` models the thrown `SyntaxError`.  The fuel `2 * length + 2` dominates
the recursion depth (every two fuel decrements consume at least one character). -/
def parseJson (s : String) : Option Json :=
  let cs := skipJsonWs s.data
  match parseValue (2 * cs.length + 2) cs with
  | some (v, rest) => if skipJsonWs rest = [] then some v else none
  | none => none

/-- The backtick character (written via its code point). -/
def backtick : Char := Char.ofNat 96

/-- Does `v` use the object constructor (JS `typeof v === 'object'` for the
parsed coaching)? -/
def Json.isObjV : Json → Bool
  | Json.obj _ => true
  | _ => false

/-- Close of the fenced group: for the candidate group start `cs3` (which begins
at the `\x7b`), find the largest index `j` holding `\x7d` such that skipping
JS whitespace after it reaches a closing fence — the backtracking-greedy
behaviour of `\x7b[\s\S]*\x7d` followed by `\s*` and the closing fence. -/
def fencedCloseAux (cs3 : List Char) : Nat → Option (List Char)
  | 0 => none
  | j + 1 =>
    if cs3.get? j = some '}' ∧
        List.isPrefixOf [backtick, backtick, backtick]
          ((cs3.drop (j + 1)).dropWhile isJsWs) then
      some (cs3.take (j + 1))
    else fencedCloseAux cs3 j

/-- Match of the fenced-code-block regex anchored at the current position:
three backticks, an optional literal `json`, JS whitespace, the brace group,
JS whitespace, three backticks.  Returns capture group 1 (the brace group).
The `(?:json)?` and the two `\s*` are deterministic here because the token
after each of them can never also start the skipped text. -/
def fencedAt (cs : List Char) : Option (List Char) :=
  if List.isPrefixOf [backtick, backtick, backtick] cs then
    let cs1 := cs.drop 3
    let cs2 := if List.isPrefixOf ['j', 's', 'o', 'n'] cs1 then cs1.drop 4 else cs1
    let cs3 := cs2.dropWhile isJsWs
    match cs3 with
    | '{' :: _ => fencedCloseAux cs3 cs3.length
    | _ => none
  else none

/-- Leftmost match of the fenced-code-block regex (tries every start position,
as the JS regex engine does). -/
def fencedSearch : List Char → Option (List Char)
  | [] => none
  | c :: rest =>
    match fencedAt (c :: rest) with
    | some g => some g
    | none => fencedSearch rest

/-- Model of `responseText.match(/\x60\x60\x60(?:json)?\s*(\x7b[\s\S]*\x7d)\s*\x60\x60\x60/)`,
returning capture group 1. -/
def fencedExtract (s : String) : Option String :=
  (fencedSearch s.data).map fun g => ⟨g⟩

/-- Model of `responseText.match(/(\x7b[\s\S]*\x7d)/)`: the leftmost-greedy
match runs from the first opening brace to the last closing brace after it. -/
def braceExtract (s : String) : Option String :=
  let cs := s.data
  match cs.findIdx? (· = '{') with
  | none => none
  | some i =>
    match cs.reverse.findIdx? (· = '}') with
    | none => none
    | some rj =>
      let j := cs.length - 1 - rj
      if i < j then some ⟨(cs.take (j + 1)).drop i⟩ else none

/-- The fixed fallback coaching structure from `generateSalesCoaching`
(`src/lib/claude.js`), substituted when JSON extraction/parsing fails. -/
def fallbackCoaching : Json :=
  Json.obj
    [ ("overallSentiment", Json.str "neutral")
    , ("talkRatio", Json.obj [("sales", Json.num 5 (-1)), ("customer", Json.num 5 (-1))])
    , ("recommendations", Json.arr
        [ Json.obj
            [ ("type", Json.str "improvement")
            , ("category", Json.str "active_listening")
            , ("title", Json.str "Continue the conversation")
            , ("description", Json.str "Keep engaging with the customer and gathering information.")
            , ("priority", Json.str "medium") ] ])
    , ("keyMoments", Json.arr [])
    , ("nextSteps", Json.arr [Json.str "Follow up on discussed topics"])
    , ("coachingTips", Json.arr [Json.str "Stay engaged and listen actively"]) ]

/-- `jsonText` of the extraction step: capture group 1 of the fenced-block
regex, else of the brace regex, else the whole response
(`const jsonText = jsonMatch ? jsonMatch[1] : responseText`). -/
def extractedJsonText (responseText : String) : String :=
  match fencedExtract responseText with
  | some t => t
  | none =>
    match braceExtract responseText with
    | some t => t
    | none => responseText

/-- The JSON-extraction step of `generateSalesCoaching` (`src/lib/claude.js`
lines 54-81): try the fenced-block regex, then the brace regex, else the whole
response; parse; on parse failure substitute the fixed fallback structure. -/
def extractCoaching (responseText : String) : Json :=
  match parseJson (extractedJsonText responseText) with
  | some v => v
  | none => fallbackCoaching

/-! ## Webhook handler (`src/pages/api/webhook/recall.js`, current Svix variant) -/

/-- The `data.bot` sub-object of a webhook payload (read as `data?.bot?.id`). -/
structure PayloadBot where
  id : Option String

/-- The `data` sub-object of a webhook payload, restricted to the fields the
handler reads: `bot_id`, `id`, `meeting_id`, `bot.id`, `transcript.id`
(flattened to `transcript_id`), `data.words` (each word projected to its
`text`, flattened to `data_words`) and `data.participant.name` (flattened to
`data_participant_name`). -/
structure PayloadData where
  bot_id : Option String
  id : Option String
  meeting_id : Option String
  bot : Option PayloadBot
  transcript_id : Option String
  data_words : Option (List String)
  data_participant_name : Option String

/-- An inbound webhook payload (already JSON-parsed), restricted to the fields
the handler destructures; `metadata` is opaque except for `metadata?.duration`
(flattened to `metadata_duration`). -/
structure Payload where
  meeting_id : Option String
  bot_id : Option String
  type : Option String
  event_type : Option String
  event : Option String
  id : Option String
  data : Option PayloadData
  metadata_duration : Option String

/-- `actualMeetingId`: first truthy among
`meeting_id || bot_id || data?.bot_id || data?.id || data?.meeting_id || data?.bot?.id || payload.id`. -/
def resolveMeetingId (p : Payload) : Option String :=
  firstTruthy
    [ p.meeting_id
    , p.bot_id
    , p.data.bind fun d => d.bot_id
    , p.data.bind fun d => d.id
    , p.data.bind fun d => d.meeting_id
    , (p.data.bind fun d => d.bot).bind fun b => b.id
    , p.id ]

/-- `eventName = type || event_type || event`. -/
def eventNameOf (p : Payload) : Option String :=
  firstTruthy [p.type, p.event_type, p.event]

/-- One segment of the transcript JSON fetched from the Recall API on a
`transcript.done` event (fields `text`, `speaker`, `speaker_id`, `start`;
`start` is in seconds). -/
structure FetchedSeg where
  text : Option String
  speaker : Option String
  speaker_id : Option String
  start : Option Nat

/-- Body of a successful transcript fetch: truthiness of
`transcriptData.words` / `transcriptData.transcript`, and the `segments`
array (`none` when the field is absent; an empty array is still truthy). -/
structure TranscriptData where
  words_present : Bool
  transcript_present : Bool
  segments : Option (List FetchedSeg)

/-- Outcome of the external `fetch` of the full transcript: a thrown network
error (caught by the handler), a non-ok HTTP response, or an ok response. -/
inductive FetchOutcome where
  | throwErr
  | notOk
  | ok (td : TranscriptData)

/-- Arguments of one (fire-and-forget) `generateSalesCoaching` dispatch. -/
structure AnalysisCall where
  transcripts : List Transcript
  meetingId : String
  participants : List String
  duration : Option String
deriving DecidableEq

/-- The webhook handler's HTTP response plus resulting store and the analysis
dispatches it fired. -/
structure HandlerResult where
  status : Nat
  success : Bool
  store : CallStorage
  analysisCalls : List AnalysisCall

/-- Realtime-transcript section of the handler (`transcript.data` /
`transcript.partial_data`): extract the joined word text and participant name;
when the text is truthy and non-whitespace, store the segment and, if the
recent window (last 5) has at least 3 segments, dispatch coaching generation
with that window and the call's participants. -/
def realtimeSection (mid : String) (eventName : Option String) (p : Payload)
    (now : Nat) (st : CallStorage) : CallStorage × List AnalysisCall :=
  if eventName = some "transcript.data" ∨ eventName = some "transcript.partial_data" then
    let words := (p.data.bind fun d => d.data_words).getD []
    let transcriptText := joinWords words
    let transcriptSpeaker := jsOrStr (p.data.bind fun d => d.data_participant_name) "Unknown"
    if transcriptText ≠ "" ∧ jsTrim transcriptText ≠ "" then
      let st1 := addTranscript mid
        { text := transcriptText
          speaker := transcriptSpeaker
          metadata := SegMeta.realtime (eventName.getD "") words.length
            (decide (eventName = some "transcript.partial_data"))
          timestamp := now } now st
      let recent := getRecentTranscripts mid 5 st1
      if 3 ≤ recent.length then
        (st1,
          [{ transcripts := recent
             meetingId := mid
             participants := ((getCall mid st1).map fun c => c.participants).getD []
             duration := p.metadata_duration }])
      else (st1, [])
    else (st, [])
  else (st, [])

/-- The `segments.forEach` of the `transcript.done` section: store each segment
with truthy text; a segment with truthy text but no `start` makes
`new Date(undefined * 1000).toISOString()` throw, which aborts the remaining
iterations (the exception is caught by the section's catch). -/
def bulkAppend (mid : String) (now : Nat) :
    List FetchedSeg → Nat → CallStorage → CallStorage
  | [], _, st => st
  | seg :: rest, index, st =>
    if otruthy seg.text then
      match seg.start with
      | none => st
      | some s =>
        bulkAppend mid now rest (index + 1)
          (addTranscript mid
            { text := seg.text.getD ""
              speaker := jsOrStr seg.speaker
                ("Speaker " ++ jsOrStr seg.speaker_id (toString (index + 1)))
              metadata := SegMeta.fetched s
              timestamp := s * 1000 } now st)
    else bulkAppend mid now rest (index + 1) st

/-- `transcript.done` section of the handler: when `data?.transcript?.id` is
truthy, fetch the full transcript; errors and non-ok responses are logged and
swallowed; on ok, bulk-append `transcriptData.segments || []` when any of
`words`/`segments`/`transcript` is present. -/
def doneSection (mid : String) (eventName : Option String) (p : Payload)
    (fetch : FetchOutcome) (now : Nat) (st : CallStorage) : CallStorage :=
  if eventName = some "transcript.done" then
    if otruthy (p.data.bind fun d => d.transcript_id) then
      match fetch with
      | FetchOutcome.throwErr => st
      | FetchOutcome.notOk => st
      | FetchOutcome.ok td =>
        if td.words_present || td.segments.isSome || td.transcript_present then
          bulkAppend mid now (td.segments.getD []) 0 st
        else st
    else st
  else st

/-- Bot-status sections of the handler, in source order: the activate set, the
end set, then the two legacy sets. -/
def botStatusSection (mid : String) (eventName : Option String) (now : Nat)
    (st : CallStorage) : CallStorage :=
  let st1 :=
    if eventName = some "bot.in_call_not_recording" ∨
        eventName = some "bot.in_call_recording" ∨
        eventName = some "bot.recording_permission_allowed" then
      activateCall mid now st
    else st
  let st2 :=
    if eventName = some "bot.call_ended" ∨ eventName = some "bot.done" ∨
        eventName = some "bot.fatal" then
      endCall mid now st1
    else st1
  let st3 :=
    if eventName = some "call.started" ∨ eventName = some "bot.joined_call" then
      activateCall mid now st2
    else st2
  if eventName = some "call.ended" ∨ eventName = some "bot.left_call" then
    endCall mid now st3
  else st3

/-- The webhook handler (`src/pages/api/webhook/recall.js`), for POST requests
whose body parsed: Svix verification applies when a secret is configured and
the Svix headers are present (without Svix headers the unsigned
realtime-endpoints path is taken, with no verification); a payload
with no resolvable meeting id is a 400; otherwise the three sections run and
the handler replies 200. -/
def webhookHandler (secretConfigured hasSvixHeaders sigValid : Bool)
    (payload : Payload) (fetch : FetchOutcome) (now : Nat) (st : CallStorage) :
    HandlerResult :=
  if secretConfigured && hasSvixHeaders && !sigValid then
    { status := 401, success := false, store := st, analysisCalls := [] }
  else
    match resolveMeetingId payload with
    | none => { status := 400, success := false, store := st, analysisCalls := [] }
    | some mid =>
      let eventName := eventNameOf payload
      let (st1, calls) := realtimeSection mid eventName payload now st
      let st2 := doneSection mid eventName payload fetch now st1
      let st3 := botStatusSection mid eventName now st2
      { status := 200, success := true, store := st3, analysisCalls := calls }
/-- The built-in default system prompt (`DEFAULT_SYSTEM_PROMPT` in
`src/pages/api/settings/prompt.js`); braces, quotes, newlines and apostrophes
are written as character escapes. -/
def DEFAULT_SYSTEM_PROMPT : String :=
  "<role>\nSenior AWS Cloud Sales coach for Colombian markets. Analyze transcripts using the coaching-live-sales-calls skill and provide real-time coaching in strict JSON format.\n</role>\n\n<context>\nMarket: Colombian SMB/enterprise\nKey dynamics: USD pricing concerns, multi-stakeholder approvals, relationship-driven decisions\n</context>\n\n<output_format>\nReturn ONLY valid JSON (no markdown). Required structure:\n\x7b\n  \"phase\": \x7b\"methodology\": \"string\", \"stage\": \"string\", \"context\": \"string (max 20 words)\"\x7d,\n  \"action\": \x7b\"script\": \"string (EXACTLY 12-25 words)\", \"language\": \"EN|ES\"\x7d,\n  \"tip\": \x7b\"insight\": \"string (max 20 words)\", \"rationale\": \"string (max 20 words)\", \"language\": \"EN|ES\"\x7d,\n  \"risk\": \x7b\"warning\": \"string (max 15 words)\", \"consequence\": \"string (max 5 words)\", \"language\": \"EN|ES\"\x7d,\n  \"metrics\": \x7b\"discovery\": 0-100, \"pain_quantified\": 0-100, \"dm_engagement\": 0-100, \"stakeholders\": number, \"alignment\": 0-100\x7d,\n  \"next\": \x7b\"action\": \"string (max 15 words)\", \"timeline\": \"immediate|near-term|scheduled\"\x7d\n\x7d\n</output_format>\n\n<methodologies>\nThe coaching-live-sales-calls skill will select optimal methodology:\n- BANT (Budget/Authority/Need/Timeline): Early qualification\n- MEDDIC (Metrics/Buyer/Criteria/Process/Pain/Champion): Enterprise deals\n- SPIN (Situation/Problem/Implication/Need-payoff): Discovery questions\n- Conceptual: Objection handling, validate current investment\n- Value: Quantify ROI in COP\n- Complex: Multi-stakeholder consensus\n- Assumptive Close: Act on buying signals immediately\n</methodologies>\n\n<critical_rules>\n1. Use coaching-live-sales-calls skill for phase/methodology identification\n2. Action script: 12-25 words ONLY (count strictly)\n3. All text fields: Keep to max word limits\n4. Metrics: 0-100 integers only\n5. No explanations outside JSON structure\n6. Prefer Spanish scripts for Colombian customers\n7. Flag DM engagement <60% as critical\n8. When \"think about it\" → probe for hidden objection\n9. When timeline questions → assumptive close\n10. Quantify pain in COP (Colombian Pesos) when possible\n11. Multi-stakeholder conflict → identify economic buyer\n</critical_rules>\n\n<dm_engagement_scoring>\n80-100: Active questions, sharing pain, strategic discussion\n40-79: Shorter answers, monosyllables, delayed responses\n0-39: Delegating, checking devices, \"let me think\" exits\n</dm_engagement_scoring>"

/-- The built-in default user prompt template (`DEFAULT_USER_PROMPT` in
`src/pages/api/settings/prompt.js`). -/
def DEFAULT_USER_PROMPT : String :=
  "Analyze this real-time sales conversation segment and provide immediate coaching.\n\nTRANSCRIPT:\n\x7b\x7bTRANSCRIPT\x7d\x7d\n\nCONTEXT:\n- Meeting ID: \x7b\x7bMEETING_ID\x7d\x7d\n- Participants: \x7b\x7bPARTICIPANTS\x7d\x7d\n- Call Duration: \x7b\x7bDURATION\x7d\x7d\n\nBased on the transcript above:\n1. Identify the current sales phase and methodology being used\n2. Provide a specific 6-12 word script suggestion for the next thing the sales rep should say\n3. Give actionable insight with clear rationale\n4. Flag any risks or red flags in the conversation\n5. Score the key sales metrics (discovery depth, pain quantification, decision-maker engagement, stakeholder count, alignment level)\n6. Recommend the immediate next action\n\nReturn your analysis as a single JSON object with all required fields."

/-! ## Coaching query endpoint (`/api/coaching/[meetingId]`, `src/unnamed/part_002`)
and prompt settings endpoint (`src/pages/api/settings/prompt.js`) -/

/-- Payload of the latest-slice response of the coaching query endpoint. -/
structure SliceData where
  meetingId : String
  coaching : List Coaching
  transcripts : List Transcript

/-- Response of the coaching query endpoint: HTTP status, `success`, and for
200 responses either the latest slice or the full call data. -/
structure CoachingResult where
  status : Nat
  success : Bool
  slice : Option SliceData
  call : Option Call

/-- The coaching query handler: 400 without a truthy meeting id, 405 for
non-GET; with `?latest=true` a 200 carrying the last 5 coaching records and
last 10 transcript segments (empty for an unknown call); otherwise the full
call data, or 404 when the call is unknown. -/
def coachingHandler (meetingId : Option String) (isGet : Bool) (latestOnly : Bool)
    (st : CallStorage) : CoachingResult :=
  if !otruthy meetingId then
    { status := 400, success := false, slice := none, call := none }
  else if !isGet then
    { status := 405, success := false, slice := none, call := none }
  else
    let mid := meetingId.getD ""
    if latestOnly then
      { status := 200
        success := true
        slice := some
          { meetingId := mid
            coaching := getLatestCoaching mid 5 st
            transcripts := getRecentTranscripts mid 10 st }
        call := none }
    else
      match getCall mid st with
      | none => { status := 404, success := false, slice := none, call := none }
      | some c => { status := 200, success := true, slice := none, call := some c }

/-- HTTP methods distinguished by the prompt settings endpoint. -/
inductive HttpMethod where
  | get
  | post
  | delete
  | other

/-- Response of the prompt settings endpoint: status, the prompt pair it
reports (when it reports one), the `isDefault` flag of GET responses, and the
resulting store. -/
structure PromptResult where
  status : Nat
  systemPrompt : Option String
  userPrompt : Option String
  isDefault : Option Bool
  store : CallStorage

/-- The prompt settings handler: GET returns the custom prompts when truthy,
else the built-in defaults; POST validates both body fields and saves them;
DELETE resets both to null (so reads fall back to the defaults); anything else
is a 405. -/
def promptHandler (method : HttpMethod) (bodySystemPrompt bodyUserPrompt : Option String)
    (st : CallStorage) : PromptResult :=
  match method with
  | HttpMethod.get =>
    let prompts := getPrompts st
    { status := 200
      systemPrompt := some (jsOrStr prompts.systemPrompt DEFAULT_SYSTEM_PROMPT)
      userPrompt := some (jsOrStr prompts.userPrompt DEFAULT_USER_PROMPT)
      isDefault := some (!otruthy prompts.systemPrompt && !otruthy prompts.userPrompt)
      store := st }
  | HttpMethod.post =>
    if !otruthy bodySystemPrompt then
      { status := 400, systemPrompt := none, userPrompt := none, isDefault := none, store := st }
    else if !otruthy bodyUserPrompt then
      { status := 400, systemPrompt := none, userPrompt := none, isDefault := none, store := st }
    else
      { status := 200
        systemPrompt := bodySystemPrompt
        userPrompt := bodyUserPrompt
        isDefault := none
        store := setPrompts
          { systemPrompt := bodySystemPrompt, userPrompt := bodyUserPrompt } st }
  | HttpMethod.delete =>
    { status := 200
      systemPrompt := some DEFAULT_SYSTEM_PROMPT
      userPrompt := some DEFAULT_USER_PROMPT
      isDefault := none
      store := setPrompts { systemPrompt := none, userPrompt := none } st }
  | HttpMethod.other =>
    { status := 405, systemPrompt := none, userPrompt := none, isDefault := none, store := st }

/-! ## Derived predicates and concrete fixtures used by the theorems -/

/-- Status of the session for `mid` as observable through the store; an
unknown session reads as `pending` (spec §3: status starts `pending` on first
reference). -/
def statusOf (st : CallStorage) (mid : String) : CallStatus :=
  ((findCall st.calls mid).map fun c => c.status).getD CallStatus.pending

/-- Event names on which the handler calls `storage.activateCall` (the
bot-activated set plus the legacy set). -/
def isActivateEvent (e : Option String) : Prop :=
  e = some "bot.in_call_not_recording" ∨ e = some "bot.in_call_recording" ∨
  e = some "bot.recording_permission_allowed" ∨ e = some "call.started" ∨
  e = some "bot.joined_call"

/-- Event names on which the handler calls `storage.endCall` (the terminal set
plus the legacy set). -/
def isEndEvent (e : Option String) : Prop :=
  e = some "bot.call_ended" ∨ e = some "bot.done" ∨ e = some "bot.fatal" ∨
  e = some "call.ended" ∨ e = some "bot.left_call"

/-- Every transcript segment stored anywhere in the store satisfies `P` on its
text. -/
def storeTextOk (P : String → Prop) (st : CallStorage) : Prop :=
  ∀ p ∈ st.calls, ∀ tr ∈ p.2.transcripts, P tr.text

/-- An all-`none` payload, base for the concrete fixtures. -/
def basePayload : Payload :=
  { meeting_id := none, bot_id := none, type := none, event_type := none,
    event := none, id := none, data := none, metadata_duration := none }

/-- An all-`none` payload `data` object, base for the concrete fixtures. -/
def baseData : PayloadData :=
  { bot_id := none, id := none, meeting_id := none, bot := none,
    transcript_id := none, data_words := none, data_participant_name := none }

/-- A realtime transcript event payload carrying one word, as delivered by the
streaming provider (used with `type` one of `transcript.data` /
`transcript.partial_data`). -/
def realtimePayload (mid eventType word speaker : String) : Payload :=
  { basePayload with
      bot_id := some mid
      type := some eventType
      data := some { baseData with
        data_words := some [word]
        data_participant_name := some speaker } }

/-- A `transcript.done` event payload with a truthy `data.transcript.id`. -/
def donePayload (mid : String) : Payload :=
  { basePayload with
      bot_id := some mid
      type := some "transcript.done"
      data := some { baseData with transcript_id := some "tr1" } }

/-- A bot-status event payload (no transcript content). -/
def statusPayload (mid eventType : String) : Payload :=
  { basePayload with bot_id := some mid, type := some eventType }

/-- A sample stored call used by concrete witnesses. -/
def sampleCall : Call :=
  { meetingId := "m1"
    transcripts := [{ text := "hello there", speaker := "Rep",
                      metadata := SegMeta.realtime "transcript.data" 2 false,
                      timestamp := 5 }]
    coachingRecommendations := [{ data := Json.obj [], timestamp := 6 }]
    participants := ["Rep"]
    startTime := 4
    lastUpdate := 6
    status := CallStatus.active }

/-- A sample store holding `sampleCall` under key `m1`. -/
def sampleStore : CallStorage :=
  { calls := [("m1", sampleCall)], prompts := { systemPrompt := none, userPrompt := none } }

/-- A fetched segment, for concrete runs of the `transcript.done` path. -/
def mkFetchedSeg (text speaker : Option String) (start : Option Nat) : FetchedSeg :=
  { text := text, speaker := speaker, speaker_id := none, start := start }

/-- A successful transcript fetch returning exactly the given segments. -/
def fetchOk (segs : List FetchedSeg) : FetchOutcome :=
  FetchOutcome.ok { words_present := false, transcript_present := false, segments := some segs }

/-! ## Infrastructure lemmas -/

theorem findCall_setCall (m : List (String × Call)) (k j : String) (v : Call) :
    findCall (setCall m k v) j = if k = j then some v else findCall m j := by
  induction m with
  | nil => simp [setCall, findCall]
  | cons p rest ih =>
    obtain ⟨k', v'⟩ := p
    by_cases hk : k' = k
    · subst hk
      by_cases hj : k' = j
      · subst hj; simp [setCall, findCall]
      · simp [setCall, findCall, hj]
    · by_cases hj : k' = j
      · subst hj
        have : ¬ k = k' := fun hc => hk hc.symm
        simp [setCall, findCall, hk, this]
      · simp [setCall, findCall, hk, hj, ih]

theorem mem_setCall (m : List (String × Call)) (k : String) (v : Call)
    (q : String × Call) (h : q ∈ setCall m k v) : q = (k, v) ∨ q ∈ m := by
  induction m with
  | nil => simpa [setCall] using h
  | cons p rest ih =>
    obtain ⟨k', v'⟩ := p
    by_cases hk : k' = k
    · subst hk
      simp [setCall] at h
      rcases h with h | h
      · exact Or.inl (by simp [h])
      · exact Or.inr (by simp [h])
    · simp [setCall, hk] at h
      rcases h with h | h
      · exact Or.inr (by simp [h])
      · rcases ih h with h' | h'
        · exact Or.inl h'
        · exact Or.inr (by simp [h'])

theorem findCall_mem (m : List (String × Call)) (k : String) (c : Call)
    (h : findCall m k = some c) : (k, c) ∈ m := by
  induction m with
  | nil => simp [findCall] at h
  | cons p rest ih =>
    obtain ⟨k', v'⟩ := p
    by_cases hk : k' = k
    · subst hk
      simp [findCall] at h
      simp [h]
    · simp [findCall, hk] at h
      simp [ih h]

theorem sliceLast_le (n : Nat) (l : List α) : (sliceLast n l).length ≤ n := by
  simp [sliceLast]
  omega

/-! ## Claim theorems -/

/-- C10: `getOrCreateCall` is idempotent and non-destructive — on a meeting id
already present in the store it returns the existing session object and leaves
the entire store unchanged; in particular the session's transcript log,
coaching log, participants and startTime are untouched. -/
theorem getOrCreateCall_existing_id_noop (st : CallStorage) (mid : String)
    (now : Nat) (c : Call) (h : findCall st.calls mid = some c) :
    (getOrCreateCall mid now st).1 = c ∧
    (getOrCreateCall mid now st).2 = st ∧
    (getOrCreateCall mid now st).1.transcripts = c.transcripts ∧
    (getOrCreateCall mid now st).1.coachingRecommendations = c.coachingRecommendations ∧
    (getOrCreateCall mid now st).1.participants = c.participants ∧
    (getOrCreateCall mid now st).1.startTime = c.startTime := by
  simp [getOrCreateCall, h]

/-- Witness for C10: concrete instance on `sampleStore`. -/
theorem getOrCreateCall_existing_id_noop_witness :
    (getOrCreateCall "m1" 7 sampleStore).1 = sampleCall ∧
    (getOrCreateCall "m1" 7 sampleStore).2 = sampleStore :=
  ⟨(getOrCreateCall_existing_id_noop sampleStore "m1" 7 sampleCall rfl).1,
   (getOrCreateCall_existing_id_noop sampleStore "m1" 7 sampleCall rfl).2.1⟩

/-- C8: for every meeting id with no stored session, the latest-slice query
succeeds (200) with empty coaching and transcript collections, while the full
query on the same id is a 404. -/
theorem unknown_id_slice_empty_full_notfound (st : CallStorage) (mid : String)
    (hmid : mid ≠ "") (h : findCall st.calls mid = none) :
    (coachingHandler (some mid) true true st).status = 200 ∧
    (coachingHandler (some mid) true true st).slice =
      some { meetingId := mid, coaching := [], transcripts := [] } ∧
    (coachingHandler (some mid) true false st).status = 404 ∧
    (coachingHandler (some mid) true false st).call = none := by
  have ht : otruthy (some mid) = true := by simp [otruthy, hmid]
  simp [coachingHandler, ht, getLatestCoaching, getRecentTranscripts, getCall, h]

/-- Witness for C8: concrete instance for an id unknown to `sampleStore`. -/
theorem unknown_id_slice_empty_full_notfound_witness :
    (coachingHandler (some "nobody") true true sampleStore).status = 200 ∧
    (coachingHandler (some "nobody") true false sampleStore).status = 404 :=
  ⟨(unknown_id_slice_empty_full_notfound sampleStore "nobody" (by decide) rfl).1,
   (unknown_id_slice_empty_full_notfound sampleStore "nobody" (by decide) rfl).2.2.1⟩

/-- C9 counterexample: on the response `"123"` no JSON object can be extracted
(neither regex matches), yet the step returns the parsed number `123` — not the
fallback structure and not an object — refuting the claim that the result is
always either an extracted object or the fixed fallback. -/
theorem extraction_nonobject_counterexample :
    extractCoaching "123" = Json.num 123 0 ∧
    fencedExtract "123" = none ∧
    braceExtract "123" = none ∧
    Json.isObjV (extractCoaching "123") = false ∧
    extractCoaching "123" ≠ fallbackCoaching := by
  refine ⟨rfl, rfl, rfl, rfl, ?_⟩
  intro hcontra
  rw [show extractCoaching "123" = Json.num 123 0 from rfl] at hcontra
  simp [fallbackCoaching] at hcontra

/-- C9 (amended): the extraction step is total — for every response string it
returns exactly one value without raising: the JSON value parsed from the
extracted text when that text parses (which may be a non-object when the
response contains no brace pair), and otherwise the fixed fallback coaching
object. -/
theorem extraction_total (s : String) :
    (∃ v, parseJson (extractedJsonText s) = some v ∧ extractCoaching s = v) ∨
    (parseJson (extractedJsonText s) = none ∧ extractCoaching s = fallbackCoaching ∧
      Json.isObjV fallbackCoaching = true) := by
  cases h : parseJson (extractedJsonText s) with
  | some v => exact Or.inl ⟨v, rfl, by simp [extractCoaching, h]⟩
  | none => exact Or.inr ⟨rfl, by simp [extractCoaching, h], rfl⟩

/-- C1: once the meeting identifier resolves (and, on the signed path, the
signature verifies), the webhook handler replies success (200) — for every
payload, every store and every outcome of the downstream transcript fetch, in
particular for status-only events. -/
theorem webhook_success_after_resolution (sc hh sv : Bool) (p : Payload)
    (fetch : FetchOutcome) (now : Nat) (st : CallStorage) (mid : String)
    (hres : resolveMeetingId p = some mid)
    (hsig : sc = true → hh = true → sv = true) :
    (webhookHandler sc hh sv p fetch now st).status = 200 ∧
    (webhookHandler sc hh sv p fetch now st).success = true := by
  have hguard : (sc && hh && !sv) = false := by
    cases sc <;> cases hh <;> cases sv <;> simp_all
  simp [webhookHandler, hguard, hres]

/-- Witness for C1: a signed `bot.in_call_recording` status-only event. -/
theorem webhook_success_after_resolution_witness :
    (webhookHandler true true true (statusPayload "mw" "bot.in_call_recording")
        FetchOutcome.throwErr 3 CallStorage.init).status = 200 :=
  (webhook_success_after_resolution true true true
      (statusPayload "mw" "bot.in_call_recording") FetchOutcome.throwErr 3
      CallStorage.init "mw" rfl (fun _ _ => rfl)).1

/-- C5 (code bug): a `transcript.done` bulk append stores the current server
time as the segment's timestamp even though the fetched segment carries a
source timestamp (`start = 5` s, i.e. 5000 ms): `addTranscript` overwrites the
handler-computed source timestamp. -/
theorem transcriptDone_stores_server_time :
    ((findCall (webhookHandler false false false (donePayload "m5")
          (fetchOk [mkFetchedSeg (some "hello") (some "A") (some 5)])
          1700000000000 CallStorage.init).store.calls "m5").map
        fun c => c.transcripts.map fun tr => tr.timestamp) = some [1700000000000] ∧
    (5 : Nat) * 1000 ≠ 1700000000000 := by
  decide

/-- C6 counterexample: the `transcript.done` bulk append stores a segment whose
text is the single space `" "` (truthy but whitespace-only), refuting the
invariant that no stored segment's text is empty after trimming. -/
theorem whitespace_only_segment_stored :
    ((findCall (webhookHandler false false false (donePayload "m6")
          (fetchOk [mkFetchedSeg (some " ") none (some 1)])
          99 CallStorage.init).store.calls "m6").map
        fun c => c.transcripts.map fun tr => (tr.text, jsTrim tr.text)) =
      some [(" ", "")] := by
  decide

/-- C3 counterexample: three `transcript.partial_data` events on a fresh store —
the third event (a transcript-partial event, whose stored segment is flagged
partial) dispatches exactly one analysis call, refuting the claim that the
analysis trigger only fires after non-partial appends. -/
theorem partial_event_triggers_analysis :
    ((webhookHandler false false false
        (realtimePayload "m3" "transcript.partial_data" "c" "Al")
        FetchOutcome.throwErr 3
        (webhookHandler false false false
          (realtimePayload "m3" "transcript.partial_data" "b" "Al")
          FetchOutcome.throwErr 2
          (webhookHandler false false false
            (realtimePayload "m3" "transcript.partial_data" "a" "Al")
            FetchOutcome.throwErr 1 CallStorage.init).store).store).analysisCalls.map
      fun a => (a.transcripts.map fun tr => (tr.text, tr.metadata), a.participants)) =
      [([("c", SegMeta.realtime "transcript.partial_data" 1 true),
         ("b", SegMeta.realtime "transcript.partial_data" 1 true),
         ("a", SegMeta.realtime "transcript.partial_data" 1 true)], ["Al"])] ∧
    eventNameOf (realtimePayload "m3" "transcript.partial_data" "c" "Al") =
      some "transcript.partial_data" := by
  decide

/-- C7: the prompt-configuration operations — GET returns the custom pair when
set and the built-in defaults when unset; a valid POST stores the new pair for
later reads; DELETE resets so reads fall back to the defaults; and each of
these operations replies 200 (no server error). -/
theorem promptConfiguration_spec (st : CallStorage) (sys usr : String)
    (hs : sys ≠ "") (hu : usr ≠ "") :
    ((promptHandler HttpMethod.get none none st).status = 200 ∧
      (st.prompts = { systemPrompt := none, userPrompt := none } →
        (promptHandler HttpMethod.get none none st).systemPrompt =
          some DEFAULT_SYSTEM_PROMPT ∧
        (promptHandler HttpMethod.get none none st).userPrompt =
          some DEFAULT_USER_PROMPT ∧
        (promptHandler HttpMethod.get none none st).isDefault = some true) ∧
      (st.prompts = { systemPrompt := some sys, userPrompt := some usr } →
        (promptHandler HttpMethod.get none none st).systemPrompt = some sys ∧
        (promptHandler HttpMethod.get none none st).userPrompt = some usr ∧
        (promptHandler HttpMethod.get none none st).isDefault = some false)) ∧
    ((promptHandler HttpMethod.post (some sys) (some usr) st).status = 200 ∧
      (promptHandler HttpMethod.post (some sys) (some usr) st).store.prompts =
        { systemPrompt := some sys, userPrompt := some usr } ∧
      (promptHandler HttpMethod.get none none
          (promptHandler HttpMethod.post (some sys) (some usr) st).store).systemPrompt =
        some sys ∧
      (promptHandler HttpMethod.get none none
          (promptHandler HttpMethod.post (some sys) (some usr) st).store).userPrompt =
        some usr) ∧
    ((promptHandler HttpMethod.delete none none st).status = 200 ∧
      (promptHandler HttpMethod.delete none none st).store.prompts =
        { systemPrompt := none, userPrompt := none } ∧
      (promptHandler HttpMethod.get none none
          (promptHandler HttpMethod.delete none none st).store).systemPrompt =
        some DEFAULT_SYSTEM_PROMPT ∧
      (promptHandler HttpMethod.get none none
          (promptHandler HttpMethod.delete none none st).store).userPrompt =
        some DEFAULT_USER_PROMPT) := by
  have hsb : otruthy (some sys) = true := by simp [otruthy, hs]
  have hub : otruthy (some usr) = true := by simp [otruthy, hu]
  refine ⟨⟨rfl, fun h => ?_, fun h => ?_⟩, ?_, ?_⟩
  · simp [promptHandler, getPrompts, h, jsOrStr, otruthy]
  · simp [promptHandler, getPrompts, h, jsOrStr, hs, hu, otruthy]
  · simp [promptHandler, hsb, hub, setPrompts, getPrompts, jsOrStr, hs, hu]
  · simp [promptHandler, setPrompts, getPrompts, jsOrStr]

/-- Witness for C7: concrete read of the defaults on the fresh store and a
concrete round-trip through POST. -/
theorem promptConfiguration_spec_witness :
    (promptHandler HttpMethod.get none none CallStorage.init).systemPrompt =
      some DEFAULT_SYSTEM_PROMPT ∧
    (promptHandler HttpMethod.post (some "S") (some "U") CallStorage.init).store.prompts =
      { systemPrompt := some "S", userPrompt := some "U" } :=
  ⟨((promptConfiguration_spec CallStorage.init "S" "U" (by decide) (by decide)).1.2.1 rfl).1,
   (promptConfiguration_spec CallStorage.init "S" "U" (by decide) (by decide)).2.1.2.1⟩

/-! ## Status lemmas (for the lifecycle claim) -/

theorem statusOf_addTranscript (mid j : String) (t : TranscriptArg) (now : Nat)
    (st : CallStorage) :
    statusOf (addTranscript mid t now st) j = statusOf st j := by
  unfold addTranscript getOrCreateCall
  cases h : findCall st.calls mid with
  | some c =>
    by_cases hj : mid = j
    · subst hj; simp [statusOf, findCall_setCall, h]
    · simp [statusOf, findCall_setCall, hj]
  | none =>
    by_cases hj : mid = j
    · subst hj; simp [statusOf, findCall_setCall, h]
    · simp [statusOf, findCall_setCall, hj]

theorem statusOf_bulkAppend (mid j : String) (now : Nat) (segs : List FetchedSeg)
    (index : Nat) (st : CallStorage) :
    statusOf (bulkAppend mid now segs index st) j = statusOf st j := by
  induction segs generalizing index st with
  | nil => simp [bulkAppend]
  | cons seg rest ih =>
    unfold bulkAppend
    split
    · cases seg.start with
      | none => rfl
      | some s => simp [ih, statusOf_addTranscript]
    · exact ih _ _

theorem statusOf_realtimeSection (mid j : String) (e : Option String) (p : Payload)
    (now : Nat) (st : CallStorage) :
    statusOf (realtimeSection mid e p now st).1 j = statusOf st j := by
  unfold realtimeSection
  dsimp only
  split
  · split
    · split <;> simp [statusOf_addTranscript]
    · rfl
  · rfl

theorem statusOf_doneSection (mid j : String) (e : Option String) (p : Payload)
    (fetch : FetchOutcome) (now : Nat) (st : CallStorage) :
    statusOf (doneSection mid e p fetch now st) j = statusOf st j := by
  unfold doneSection
  split
  · split
    · split
      · rfl
      · rfl
      · split <;> simp [statusOf_bulkAppend]
    · rfl
  · rfl

theorem statusOf_activateCall (mid j : String) (now : Nat) (st : CallStorage) :
    statusOf (activateCall mid now st) j =
      if mid = j then
        (if statusOf st mid = CallStatus.ended then CallStatus.ended else CallStatus.active)
      else statusOf st j := by
  unfold activateCall getOrCreateCall
  cases h : findCall st.calls mid with
  | some c =>
    by_cases hj : mid = j
    · subst hj
      by_cases he : c.status = CallStatus.ended
      · simp [statusOf, h, he]
      · simp [statusOf, findCall_setCall, h, he]
    · by_cases he : c.status = CallStatus.ended
      · simp [statusOf, h, he, hj]
      · simp [statusOf, findCall_setCall, h, he, hj]
  | none =>
    by_cases hj : mid = j
    · subst hj; simp [statusOf, findCall_setCall, h]
    · simp [statusOf, findCall_setCall, h, hj]

theorem statusOf_endCall (mid j : String) (now : Nat) (st : CallStorage) :
    statusOf (endCall mid now st) j =
      if mid = j then CallStatus.ended else statusOf st j := by
  unfold endCall getOrCreateCall
  cases h : findCall st.calls mid with
  | some c =>
    by_cases hj : mid = j
    · subst hj; simp [statusOf, findCall_setCall, h]
    · simp [statusOf, findCall_setCall, hj]
  | none =>
    by_cases hj : mid = j
    · subst hj; simp [statusOf, findCall_setCall, h]
    · simp [statusOf, findCall_setCall, h, hj]

theorem botStatusSection_preserves_ended (mid j : String) (e : Option String)
    (now : Nat) (st : CallStorage) (h : statusOf st j = CallStatus.ended) :
    statusOf (botStatusSection mid e now st) j = CallStatus.ended := by
  have hA : ∀ (c : Prop) (inst : Decidable c) (st' : CallStorage),
      statusOf st' j = CallStatus.ended →
      statusOf (@ite _ c inst (activateCall mid now st') st') j = CallStatus.ended := by
    intro c inst st' h'
    split
    · rw [statusOf_activateCall]
      by_cases hj : mid = j
      · subst hj; simp [h']
      · simp [hj, h']
    · exact h'
  have hE : ∀ (c : Prop) (inst : Decidable c) (st' : CallStorage),
      statusOf st' j = CallStatus.ended →
      statusOf (@ite _ c inst (endCall mid now st') st') j = CallStatus.ended := by
    intro c inst st' h'
    split
    · rw [statusOf_endCall]
      by_cases hj : mid = j <;> simp [hj, h']
    · exact h'
  unfold botStatusSection
  dsimp only
  exact hE _ _ _ (hA _ _ _ (hE _ _ _ (hA _ _ _ h)))

theorem botStatusSection_activate (mid : String) (e : Option String) (now : Nat)
    (st : CallStorage) (he : isActivateEvent e)
    (h : statusOf st mid ≠ CallStatus.ended) :
    statusOf (botStatusSection mid e now st) mid = CallStatus.active := by
  rcases he with h1 | h1 | h1 | h1 | h1 <;> subst h1 <;>
    simp [botStatusSection, statusOf_activateCall, statusOf_endCall, h]

theorem botStatusSection_end (mid : String) (e : Option String) (now : Nat)
    (st : CallStorage) (he : isEndEvent e) :
    statusOf (botStatusSection mid e now st) mid = CallStatus.ended := by
  rcases he with h1 | h1 | h1 | h1 | h1 <;> subst h1 <;>
    simp [botStatusSection, statusOf_activateCall, statusOf_endCall]

/-- C2: session status lifecycle — a session created on first reference starts
`pending`; an applied bot-activated event makes it `active` (when not already
`ended`); an applied terminal event makes it `ended`; and once `ended` no
subsequently applied event changes it (monotonicity, over all payloads, all
fetch outcomes and all sessions). -/
theorem session_status_lifecycle :
    (∀ (st : CallStorage) (mid : String) (now : Nat),
      findCall st.calls mid = none →
      statusOf (getOrCreateCall mid now st).2 mid = CallStatus.pending) ∧
    (∀ (sc hh sv : Bool) (p : Payload) (fetch : FetchOutcome) (now : Nat)
        (st : CallStorage) (mid : String),
      resolveMeetingId p = some mid →
      (sc && hh && !sv) = false →
      isActivateEvent (eventNameOf p) →
      statusOf st mid ≠ CallStatus.ended →
      statusOf (webhookHandler sc hh sv p fetch now st).store mid = CallStatus.active) ∧
    (∀ (sc hh sv : Bool) (p : Payload) (fetch : FetchOutcome) (now : Nat)
        (st : CallStorage) (mid : String),
      resolveMeetingId p = some mid →
      (sc && hh && !sv) = false →
      isEndEvent (eventNameOf p) →
      statusOf (webhookHandler sc hh sv p fetch now st).store mid = CallStatus.ended) ∧
    (∀ (sc hh sv : Bool) (p : Payload) (fetch : FetchOutcome) (now : Nat)
        (st : CallStorage) (j : String),
      statusOf st j = CallStatus.ended →
      statusOf (webhookHandler sc hh sv p fetch now st).store j = CallStatus.ended) := by
  refine ⟨?_, ?_, ?_, ?_⟩
  · intro st mid now h
    simp [getOrCreateCall, h, statusOf, findCall_setCall]
  · intro sc hh sv p fetch now st mid hres hguard hact hne
    simp only [webhookHandler, hguard, hres, Bool.false_eq_true, if_false]
    apply botStatusSection_activate _ _ _ _ hact
    rw [statusOf_doneSection, statusOf_realtimeSection]
    exact hne
  · intro sc hh sv p fetch now st mid hres hguard hend
    simp only [webhookHandler, hguard, hres, Bool.false_eq_true, if_false]
    exact botStatusSection_end _ _ _ _ hend
  · intro sc hh sv p fetch now st j h
    unfold webhookHandler
    split
    · exact h
    · split
      · exact h
      · dsimp only
        apply botStatusSection_preserves_ended
        rw [statusOf_doneSection, statusOf_realtimeSection]
        exact h

/-- Witness for C2: a fresh session is `pending`; a `bot.in_call_recording`
event activates it; a `bot.done` event ends it; a further
`bot.in_call_recording` event leaves it `ended`. -/
theorem session_status_lifecycle_witness :
    statusOf (getOrCreateCall "w" 1 CallStorage.init).2 "w" = CallStatus.pending ∧
    statusOf (webhookHandler false false false (statusPayload "w" "bot.in_call_recording")
        FetchOutcome.throwErr 2 CallStorage.init).store "w" = CallStatus.active ∧
    statusOf (webhookHandler false false false (statusPayload "w" "bot.done")
        FetchOutcome.throwErr 3 CallStorage.init).store "w" = CallStatus.ended ∧
    statusOf (webhookHandler false false false (statusPayload "w" "bot.in_call_recording")
        FetchOutcome.throwErr 5
        (webhookHandler false false false (statusPayload "w" "bot.done")
          FetchOutcome.throwErr 4 CallStorage.init).store).store "w" = CallStatus.ended := by
  refine ⟨session_status_lifecycle.1 CallStorage.init "w" 1 rfl,
    session_status_lifecycle.2.1 false false false _ FetchOutcome.throwErr 2
      CallStorage.init "w" rfl rfl (Or.inr (Or.inl rfl)) (by decide),
    session_status_lifecycle.2.2.1 false false false _ FetchOutcome.throwErr 3
      CallStorage.init "w" rfl rfl (Or.inr (Or.inl rfl)),
    session_status_lifecycle.2.2.2 false false false _ FetchOutcome.throwErr 5 _ "w" ?_⟩
  exact session_status_lifecycle.2.2.1 false false false _ FetchOutcome.throwErr 4
    CallStorage.init "w" rfl rfl (Or.inr (Or.inl rfl))

/-! ## Stored-text lemmas (for the segment-text claim) -/

theorem storeTextOk_addTranscript (P : String → Prop) (mid : String)
    (t : TranscriptArg) (now : Nat) (st : CallStorage)
    (hP : P t.text) (h : storeTextOk P st) :
    storeTextOk P (addTranscript mid t now st) := by
  unfold addTranscript getOrCreateCall
  cases hf : findCall st.calls mid with
  | some c =>
    intro p hp tr htr
    dsimp only at hp
    rcases mem_setCall _ _ _ _ hp with hp' | hp'
    · subst hp'
      simp only [List.mem_append, List.mem_singleton] at htr
      rcases htr with htr | htr
      · exact h (mid, c) (findCall_mem _ _ _ hf) tr htr
      · subst htr; exact hP
    · exact h p hp' tr htr
  | none =>
    intro p hp tr htr
    dsimp only at hp
    rcases mem_setCall _ _ _ _ hp with hp' | hp'
    · subst hp'
      simp only [List.nil_append, List.mem_singleton] at htr
      subst htr; exact hP
    · rcases mem_setCall _ _ _ _ hp' with hp'' | hp''
      · subst hp''
        simp at htr
      · exact h p hp'' tr htr

theorem storeTextOk_gocStore (P : String → Prop) (mid : String) (now : Nat)
    (st : CallStorage) (h : storeTextOk P st) :
    storeTextOk P (getOrCreateCall mid now st).2 := by
  unfold getOrCreateCall
  cases hf : findCall st.calls mid with
  | some c => exact h
  | none =>
    intro p hp tr htr
    dsimp only at hp
    rcases mem_setCall _ _ _ _ hp with hp' | hp'
    · subst hp'; simp at htr
    · exact h p hp' tr htr

theorem storeTextOk_activateCall (P : String → Prop) (mid : String) (now : Nat)
    (st : CallStorage) (h : storeTextOk P st) :
    storeTextOk P (activateCall mid now st) := by
  unfold activateCall getOrCreateCall
  cases hf : findCall st.calls mid with
  | some c =>
    by_cases he : c.status = CallStatus.ended
    · simpa [he] using h
    · simp only [he, if_false]
      intro p hp tr htr
      dsimp only at hp
      rcases mem_setCall _ _ _ _ hp with hp' | hp'
      · subst hp'
        exact h (mid, c) (findCall_mem _ _ _ hf) tr htr
      · exact h p hp' tr htr
  | none =>
    simp only [if_neg]
    intro p hp tr htr
    rcases mem_setCall _ _ _ _ hp with hp' | hp'
    · subst hp'; simp at htr
    · rcases mem_setCall _ _ _ _ hp' with hp'' | hp''
      · subst hp''; simp at htr
      · exact h p hp'' tr htr

theorem storeTextOk_endCall (P : String → Prop) (mid : String) (now : Nat)
    (st : CallStorage) (h : storeTextOk P st) :
    storeTextOk P (endCall mid now st) := by
  unfold endCall getOrCreateCall
  cases hf : findCall st.calls mid with
  | some c =>
    intro p hp tr htr
    dsimp only at hp
    rcases mem_setCall _ _ _ _ hp with hp' | hp'
    · subst hp'
      exact h (mid, c) (findCall_mem _ _ _ hf) tr htr
    · exact h p hp' tr htr
  | none =>
    intro p hp tr htr
    dsimp only at hp
    rcases mem_setCall _ _ _ _ hp with hp' | hp'
    · subst hp'; simp at htr
    · rcases mem_setCall _ _ _ _ hp' with hp'' | hp''
      · subst hp''; simp at htr
      · exact h p hp'' tr htr

theorem storeTextOk_botStatusSection (P : String → Prop) (mid : String)
    (e : Option String) (now : Nat) (st : CallStorage) (h : storeTextOk P st) :
    storeTextOk P (botStatusSection mid e now st) := by
  have hA : ∀ (c : Prop) (inst : Decidable c) (st' : CallStorage),
      storeTextOk P st' → storeTextOk P (@ite _ c inst (activateCall mid now st') st') := by
    intro c inst st' h'
    split
    · exact storeTextOk_activateCall _ _ _ _ h'
    · exact h'
  have hE : ∀ (c : Prop) (inst : Decidable c) (st' : CallStorage),
      storeTextOk P st' → storeTextOk P (@ite _ c inst (endCall mid now st') st') := by
    intro c inst st' h'
    split
    · exact storeTextOk_endCall _ _ _ _ h'
    · exact h'
  unfold botStatusSection
  dsimp only
  exact hE _ _ _ (hA _ _ _ (hE _ _ _ (hA _ _ _ h)))

theorem storeTextOk_bulkAppend (mid : String) (now : Nat) (segs : List FetchedSeg)
    (index : Nat) (st : CallStorage) (h : storeTextOk (fun s => s ≠ "") st) :
    storeTextOk (fun s => s ≠ "") (bulkAppend mid now segs index st) := by
  induction segs generalizing index st with
  | nil => simpa [bulkAppend] using h
  | cons seg rest ih =>
    unfold bulkAppend
    split
    · next htr =>
      cases hs : seg.start with
      | none => exact h
      | some s =>
        apply ih
        apply storeTextOk_addTranscript _ _ _ _ _ _ h
        cases ht : seg.text with
        | none => simp [otruthy, ht] at htr
        | some txt => simpa [otruthy, ht] using htr
    · exact ih _ _ h

theorem storeTextOk_realtimeSection (P : String → Prop) (mid : String)
    (e : Option String) (p : Payload) (now : Nat) (st : CallStorage)
    (hP : ∀ s, s ≠ "" → jsTrim s ≠ "" → P s) (h : storeTextOk P st) :
    storeTextOk P (realtimeSection mid e p now st).1 := by
  unfold realtimeSection
  dsimp only
  split
  · split
    · next hc =>
      split
      · exact storeTextOk_addTranscript _ _ _ _ _ (hP _ hc.1 hc.2) h
      · exact storeTextOk_addTranscript _ _ _ _ _ (hP _ hc.1 hc.2) h
    · exact h
  · exact h

theorem storeTextOk_doneSection (mid : String) (e : Option String) (p : Payload)
    (fetch : FetchOutcome) (now : Nat) (st : CallStorage)
    (h : storeTextOk (fun s => s ≠ "") st) :
    storeTextOk (fun s => s ≠ "") (doneSection mid e p fetch now st) := by
  unfold doneSection
  split
  · split
    · split
      · exact h
      · exact h
      · split
        · exact storeTextOk_bulkAppend _ _ _ _ _ h
        · exact h
    · exact h
  · exact h

theorem doneSection_skip (mid : String) (e : Option String) (p : Payload)
    (fetch : FetchOutcome) (now : Nat) (st : CallStorage)
    (he : e ≠ some "transcript.done") :
    doneSection mid e p fetch now st = st := by
  unfold doneSection
  rw [if_neg he]

/-- C6 (amended): the handler preserves the invariant that every stored
segment's text is a non-empty (truthy) string, over all paths; the stronger
invariant that every stored text is non-whitespace (non-empty after trimming)
is preserved by every event except `transcript.done`, whose bulk append checks
only truthiness and may store whitespace-only text. -/
theorem stored_segment_text_invariant (sc hh sv : Bool) (p : Payload)
    (fetch : FetchOutcome) (now : Nat) (st : CallStorage) :
    (storeTextOk (fun s => s ≠ "") st →
      storeTextOk (fun s => s ≠ "") (webhookHandler sc hh sv p fetch now st).store) ∧
    (storeTextOk (fun s => jsTrim s ≠ "") st →
      eventNameOf p ≠ some "transcript.done" →
      storeTextOk (fun s => jsTrim s ≠ "") (webhookHandler sc hh sv p fetch now st).store) := by
  constructor
  · intro h
    unfold webhookHandler
    split
    · exact h
    · split
      · exact h
      · dsimp only
        apply storeTextOk_botStatusSection
        apply storeTextOk_doneSection
        exact storeTextOk_realtimeSection _ _ _ _ _ _ (fun s hs _ => hs) h
  · intro h hne
    unfold webhookHandler
    split
    · exact h
    · split
      · exact h
      · dsimp only
        apply storeTextOk_botStatusSection
        rw [doneSection_skip _ _ _ _ _ _ hne]
        exact storeTextOk_realtimeSection _ _ _ _ _ _ (fun s _ ht => ht) h

/-- Witness for the amended C6: a concrete realtime event on the fresh store
preserves the non-whitespace invariant. -/
theorem stored_segment_text_invariant_witness :
    storeTextOk (fun s => jsTrim s ≠ "")
      (webhookHandler false false false (realtimePayload "m" "transcript.data" "hi" "A")
        FetchOutcome.throwErr 1 CallStorage.init).store :=
  (stored_segment_text_invariant false false false
      (realtimePayload "m" "transcript.data" "hi" "A") FetchOutcome.throwErr 1
      CallStorage.init).2
    (fun q hq => absurd hq (by simp [CallStorage.init]))
    (by decide)

theorem botStatusSection_skip (mid : String) (e : Option String) (now : Nat)
    (st : CallStorage)
    (h : e = some "transcript.data" ∨ e = some "transcript.partial_data") :
    botStatusSection mid e now st = st := by
  rcases h with h | h <;> subst h <;> simp [botStatusSection]

theorem exists_findCall_addTranscript (mid : String) (t : TranscriptArg) (now : Nat)
    (st : CallStorage) :
    ∃ c, findCall (addTranscript mid t now st).calls mid = some c := by
  unfold addTranscript getOrCreateCall
  cases h : findCall st.calls mid <;> simp [findCall_setCall]

/-- C3 (amended): every analysis dispatch of the handler happens immediately
after a realtime transcript append — partial (`transcript.partial_data`) or
final (`transcript.data`) — and carries the window of the session's most
recent at most 5 stored segments (most recent first, at least 3 of them)
together with the session's participant list. -/
theorem analysis_trigger_condition (sc hh sv : Bool) (p : Payload)
    (fetch : FetchOutcome) (now : Nat) (st : CallStorage)
    (h : (webhookHandler sc hh sv p fetch now st).analysisCalls ≠ []) :
    (eventNameOf p = some "transcript.data" ∨
      eventNameOf p = some "transcript.partial_data") ∧
    ∃ (mid : String) (a : AnalysisCall) (c : Call),
      resolveMeetingId p = some mid ∧
      (webhookHandler sc hh sv p fetch now st).analysisCalls = [a] ∧
      a.meetingId = mid ∧
      findCall (webhookHandler sc hh sv p fetch now st).store.calls mid = some c ∧
      a.transcripts = (sliceLast 5 c.transcripts).reverse ∧
      3 ≤ a.transcripts.length ∧ a.transcripts.length ≤ 5 ∧
      a.participants = c.participants := by
  by_cases hguard : (sc && hh && !sv) = true
  · exfalso; apply h; simp [webhookHandler, hguard]
  · have hguard' : (sc && hh && !sv) = false := by simpa using hguard
    cases hres : resolveMeetingId p with
    | none => exfalso; apply h; simp [webhookHandler, hguard', hres]
    | some mid =>
      simp only [webhookHandler, hguard', hres, Bool.false_eq_true, if_false] at h ⊢
      cases hrs : realtimeSection mid (eventNameOf p) p now st with
      | mk st1 calls =>
        simp only [hrs] at h ⊢
        unfold realtimeSection at hrs
        dsimp only at hrs
        split at hrs
        next hev =>
          split at hrs
          next htxt =>
            split at hrs
            next hwin =>
              injection hrs with hst1 hcalls
              subst hst1
              subst hcalls
              obtain ⟨c, hc⟩ := exists_findCall_addTranscript mid
                { text := joinWords ((p.data.bind fun d => d.data_words).getD [])
                  speaker := jsOrStr (p.data.bind fun d => d.data_participant_name) "Unknown"
                  metadata := SegMeta.realtime ((eventNameOf p).getD "")
                    ((p.data.bind fun d => d.data_words).getD []).length
                    (decide (eventNameOf p = some "transcript.partial_data"))
                  timestamp := now } now st
              have hskip1 := doneSection_skip mid (eventNameOf p) p fetch now
                (addTranscript mid
                  { text := joinWords ((p.data.bind fun d => d.data_words).getD [])
                    speaker := jsOrStr (p.data.bind fun d => d.data_participant_name) "Unknown"
                    metadata := SegMeta.realtime ((eventNameOf p).getD "")
                      ((p.data.bind fun d => d.data_words).getD []).length
                      (decide (eventNameOf p = some "transcript.partial_data"))
                    timestamp := now } now st)
                (by rcases hev with h' | h' <;> simp [h'])
              rw [hskip1, botStatusSection_skip mid (eventNameOf p) now _ hev]
              refine ⟨hev, mid, _, c, rfl, rfl, rfl, hc, ?_, ?_, ?_, ?_⟩
              · simp [getRecentTranscripts, hc]
              · simpa using hwin
              · simp [getRecentTranscripts, hc, sliceLast_le]
              · simp [getCall, hc]
            next hwin =>
              injection hrs with hst1 hcalls
              subst hcalls
              exact absurd rfl h
          next htxt =>
            injection hrs with hst1 hcalls
            subst hcalls
            exact absurd rfl h
        next hev =>
          injection hrs with hst1 hcalls
          subst hcalls
          exact absurd rfl h

/-- Witness for the amended C3: the third event of the concrete
`transcript.partial_data` run dispatches, and the theorem classifies it. -/
theorem analysis_trigger_condition_witness :
    eventNameOf (realtimePayload "m3" "transcript.partial_data" "c" "Al") =
        some "transcript.data" ∨
      eventNameOf (realtimePayload "m3" "transcript.partial_data" "c" "Al") =
        some "transcript.partial_data" :=
  (analysis_trigger_condition false false false
      (realtimePayload "m3" "transcript.partial_data" "c" "Al") FetchOutcome.throwErr 3
      (webhookHandler false false false
        (realtimePayload "m3" "transcript.partial_data" "b" "Al")
        FetchOutcome.throwErr 2
        (webhookHandler false false false
          (realtimePayload "m3" "transcript.partial_data" "a" "Al")
          FetchOutcome.throwErr 1 CallStorage.init).store).store (by decide)).1

theorem ne_empty_of_trim (s : String) (h : jsTrim s ≠ "") : s ≠ "" := by
  intro hs
  subst hs
  exact h rfl

theorem joinWords_single (t : String) : joinWords [t] = t := rfl

/-- C4: starting from a fresh session, appending five non-partial
(`transcript.data`) segments in order invokes the analysis trigger exactly on
appends 3, 4 and 5 (none on 1 or 2), each time passing the window of the most
recent at most 5 stored segments (most recent first) together with the
session's accumulated participant list. -/
theorem windowing_three_to_five
    (t1 t2 t3 t4 t5 s1 s2 s3 s4 s5 : String) (n1 n2 n3 n4 n5 : Nat)
    (ht1 : jsTrim t1 ≠ "") (ht2 : jsTrim t2 ≠ "") (ht3 : jsTrim t3 ≠ "")
    (ht4 : jsTrim t4 ≠ "") (ht5 : jsTrim t5 ≠ "")
    (hs1 : s1 ≠ "") (hs2 : s2 ≠ "") (hs3 : s3 ≠ "") (hs4 : s4 ≠ "") (hs5 : s5 ≠ "") :
    (webhookHandler false false false (realtimePayload "m4" "transcript.data" t1 s1)
      FetchOutcome.throwErr n1 CallStorage.init).analysisCalls = [] ∧
    (webhookHandler false false false (realtimePayload "m4" "transcript.data" t2 s2)
      FetchOutcome.throwErr n2
      (webhookHandler false false false (realtimePayload "m4" "transcript.data" t1 s1)
        FetchOutcome.throwErr n1 CallStorage.init).store).analysisCalls = [] ∧
    (webhookHandler false false false (realtimePayload "m4" "transcript.data" t3 s3)
      FetchOutcome.throwErr n3
      (webhookHandler false false false (realtimePayload "m4" "transcript.data" t2 s2)
        FetchOutcome.throwErr n2
        (webhookHandler false false false (realtimePayload "m4" "transcript.data" t1 s1)
          FetchOutcome.throwErr n1 CallStorage.init).store).store).analysisCalls =
      [{ transcripts :=
            [{ text := t3, speaker := s3,
               metadata := SegMeta.realtime "transcript.data" 1 false, timestamp := n3 },
             { text := t2, speaker := s2,
               metadata := SegMeta.realtime "transcript.data" 1 false, timestamp := n2 },
             { text := t1, speaker := s1,
               metadata := SegMeta.realtime "transcript.data" 1 false, timestamp := n1 }]
         meetingId := "m4"
         participants := jsSetAdd (jsSetAdd (jsSetAdd [] s1) s2) s3
         duration := none }] ∧
    (webhookHandler false false false (realtimePayload "m4" "transcript.data" t4 s4)
      FetchOutcome.throwErr n4
      (webhookHandler false false false (realtimePayload "m4" "transcript.data" t3 s3)
        FetchOutcome.throwErr n3
        (webhookHandler false false false (realtimePayload "m4" "transcript.data" t2 s2)
          FetchOutcome.throwErr n2
          (webhookHandler false false false (realtimePayload "m4" "transcript.data" t1 s1)
            FetchOutcome.throwErr n1 CallStorage.init).store).store).store).analysisCalls =
      [{ transcripts :=
            [{ text := t4, speaker := s4,
               metadata := SegMeta.realtime "transcript.data" 1 false, timestamp := n4 },
             { text := t3, speaker := s3,
               metadata := SegMeta.realtime "transcript.data" 1 false, timestamp := n3 },
             { text := t2, speaker := s2,
               metadata := SegMeta.realtime "transcript.data" 1 false, timestamp := n2 },
             { text := t1, speaker := s1,
               metadata := SegMeta.realtime "transcript.data" 1 false, timestamp := n1 }]
         meetingId := "m4"
         participants := jsSetAdd (jsSetAdd (jsSetAdd (jsSetAdd [] s1) s2) s3) s4
         duration := none }] ∧
    (webhookHandler false false false (realtimePayload "m4" "transcript.data" t5 s5)
      FetchOutcome.throwErr n5
      (webhookHandler false false false (realtimePayload "m4" "transcript.data" t4 s4)
        FetchOutcome.throwErr n4
        (webhookHandler false false false (realtimePayload "m4" "transcript.data" t3 s3)
          FetchOutcome.throwErr n3
          (webhookHandler false false false (realtimePayload "m4" "transcript.data" t2 s2)
            FetchOutcome.throwErr n2
            (webhookHandler false false false (realtimePayload "m4" "transcript.data" t1 s1)
              FetchOutcome.throwErr n1
              CallStorage.init).store).store).store).store).analysisCalls =
      [{ transcripts :=
            [{ text := t5, speaker := s5,
               metadata := SegMeta.realtime "transcript.data" 1 false, timestamp := n5 },
             { text := t4, speaker := s4,
               metadata := SegMeta.realtime "transcript.data" 1 false, timestamp := n4 },
             { text := t3, speaker := s3,
               metadata := SegMeta.realtime "transcript.data" 1 false, timestamp := n3 },
             { text := t2, speaker := s2,
               metadata := SegMeta.realtime "transcript.data" 1 false, timestamp := n2 },
             { text := t1, speaker := s1,
               metadata := SegMeta.realtime "transcript.data" 1 false, timestamp := n1 }]
         meetingId := "m4"
         participants := jsSetAdd (jsSetAdd (jsSetAdd (jsSetAdd (jsSetAdd [] s1) s2) s3) s4) s5
         duration := none }] := by
  have ha1 := ne_empty_of_trim t1 ht1
  have ha2 := ne_empty_of_trim t2 ht2
  have ha3 := ne_empty_of_trim t3 ht3
  have ha4 := ne_empty_of_trim t4 ht4
  have ha5 := ne_empty_of_trim t5 ht5
  refine ⟨?_, ?_, ?_, ?_, ?_⟩ <;>
    simp [webhookHandler, realtimeSection, doneSection, botStatusSection,
      addTranscript, getOrCreateCall, getCall, findCall, setCall,
      getRecentTranscripts, sliceLast, resolveMeetingId, eventNameOf, firstTruthy,
      jsOrStr, otruthy, realtimePayload, basePayload, baseData, CallStorage.init,
      joinWords_single, ht1, ht2, ht3, ht4, ht5, ha1, ha2, ha3, ha4, ha5,
      hs1, hs2, hs3, hs4, hs5]

/-- Witness for C4: the five-segment run at concrete texts and speakers. -/
theorem windowing_three_to_five_witness :
    (webhookHandler false false false (realtimePayload "m4" "transcript.data" "a" "Rep")
      FetchOutcome.throwErr 1 CallStorage.init).analysisCalls = [] ∧
    (webhookHandler false false false (realtimePayload "m4" "transcript.data" "b" "Customer")
      FetchOutcome.throwErr 2
      (webhookHandler false false false (realtimePayload "m4" "transcript.data" "a" "Rep")
        FetchOutcome.throwErr 1 CallStorage.init).store).analysisCalls = [] ∧
    (webhookHandler false false false (realtimePayload "m4" "transcript.data" "c" "Rep")
      FetchOutcome.throwErr 3
      (webhookHandler false false false (realtimePayload "m4" "transcript.data" "b" "Customer")
        FetchOutcome.throwErr 2
        (webhookHandler false false false (realtimePayload "m4" "transcript.data" "a" "Rep")
          FetchOutcome.throwErr 1 CallStorage.init).store).store).analysisCalls =
      [{ transcripts :=
            [{ text := "c", speaker := "Rep",
               metadata := SegMeta.realtime "transcript.data" 1 false, timestamp := 3 },
             { text := "b", speaker := "Customer",
               metadata := SegMeta.realtime "transcript.data" 1 false, timestamp := 2 },
             { text := "a", speaker := "Rep",
               metadata := SegMeta.realtime "transcript.data" 1 false, timestamp := 1 }]
         meetingId := "m4"
         participants := jsSetAdd (jsSetAdd (jsSetAdd [] "Rep") "Customer") "Rep"
         duration := none }] :=
  ⟨(windowing_three_to_five "a" "b" "c" "d" "e" "Rep" "Customer" "Rep" "Customer" "Rep"
      1 2 3 4 5 (by decide) (by decide) (by decide) (by decide) (by decide)
      (by decide) (by decide) (by decide) (by decide) (by decide)).1,
   (windowing_three_to_five "a" "b" "c" "d" "e" "Rep" "Customer" "Rep" "Customer" "Rep"
      1 2 3 4 5 (by decide) (by decide) (by decide) (by decide) (by decide)
      (by decide) (by decide) (by decide) (by decide) (by decide)).2.1,
   (windowing_three_to_five "a" "b" "c" "d" "e" "Rep" "Customer" "Rep" "Customer" "Rep"
      1 2 3 4 5 (by decide) (by decide) (by decide) (by decide) (by decide)
      (by decide) (by decide) (by decide) (by decide) (by decide)).2.2.1⟩
